import Mathlib

/-!
# packer-builder-veertu-anka: a verification development

A shallow embedding of the builder's configuration validation
(`builder/anka/config.go`), the create/clone step
(`builder/anka/step_create_vm.go`) and the registry client
(`client/client_registry.go`), with the properties proved about them.

Conventions of the embedding:

* Go strings are Lean `String`s, Go `int`s are `Int`s, Go errors are values of
  small inductive types carrying their text.
* Code outside the embedded files (the `math/rand` source, the `anka` command
  client, the HTTP transport, the output parser) enters as a parameter: an
  answer function the embedded code consults, never a fixed behaviour.
* Effects the properties speak about (client commands, UI lines, writes to the
  state bag) are recorded in explicit lists returned next to the Go result.
-/

namespace Anka

/-! ## The process-wide random source (`var random *rand.Rand`) -/

/-- State of the `math/rand` generator, which lies outside the embedded files.
`Intn` is an answer function: given the arguments of the calls made so far and
the argument `n > 0` of this call, the value in `[0, n)` the generator returns.
How many raw values the generator draws and rejects to produce that value
is its own business and is not modelled; `asked` is the list of the arguments of
the calls already made. -/
structure Rand where
  answer : List Nat → (n : Nat) → 0 < n → Fin n
  asked : List Nat

/-- Go's `(*rand.Rand).Intn(n)` for `n > 0`: the value in `[0, n)` the generator
answers and the generator after the call (for `n <= 0` Go panics; every caller
passes a positive length, so the bound is an argument). -/
def Rand.Intn (r : Rand) (n : Nat) (h : 0 < n) : Fin n × Rand :=
  (r.answer r.asked n h, { r with asked := r.asked ++ [n] })

/-- The declared alphabet,
`var letters = []rune("abcdefghijklmnopqrstuvwxyzABCDEFGHIJKLMNOPQRSTUVWXYZ")`. -/
def letters : List Char :=
  "abcdefghijklmnopqrstuvwxyzABCDEFGHIJKLMNOPQRSTUVWXYZ".toList

/-- The loop of `randSeq`, `for i := range b { b[i] = letters[random.Intn(len(letters))] }`,
over the `n` cells of `b`, left to right. -/
def randRunes : Rand → Nat → List Char × Rand
  | r, 0 => ([], r)
  | r, n + 1 =>
    let d := r.Intn letters.length (by decide)
    let rest := randRunes d.2 n
    (letters.get d.1 :: rest.1, rest.2)

/-- Go `randSeq(n)` for `n >= 0` (`make([]rune, n)` panics on a negative
length): the string of the `n` drawn letters and the advanced generator. -/
def randSeq (r : Rand) (n : Nat) : String × Rand :=
  let b := randRunes r n
  (String.mk b.1, b.2)

/-! ## `Config` and `NewConfig` (`builder/anka/config.go`) -/

/-- Go `DEFAULT_BOOT_DELAY`. -/
def DEFAULT_BOOT_DELAY : String := "10s"

/-- One element of `Config.PortForwardingRules`. -/
structure PortForwardingRule where
  PortForwardingGuestPort : Int
  PortForwardingHostPort : Int
  PortForwardingRuleName : String
  deriving DecidableEq, Repr

/-- Go `Config`. `CommType` is the `Type` field of the embedded communicator
configuration, the only field of the embedded structs the builder touches.
(`step_create_vm.go` spells `RAMSize` as `RamSize`.) -/
structure Config where
  CommType : String
  AnkaUser : String
  AnkaPassword : String
  InstallerApp : String
  SourceVMName : String
  SourceVMTag : String
  VMName : String
  DiskSize : String
  RAMSize : String
  CPUCount : String
  AlwaysFetch : Bool
  UpdateAddons : Bool
  RegistryName : String
  RegistryURL : String
  NodeCertPath : String
  NodeKeyPath : String
  CaRootPath : String
  IsInsecure : Bool
  PortForwardingRules : List PortForwardingRule
  HWUUID : String
  BootDelay : String
  EnableHtt : Bool
  DisableHtt : Bool
  UseAnkaCP : Bool
  StopVM : Bool
  deriving DecidableEq, Repr

/-- The zero value of `Config` (what `var c Config` holds before decoding). -/
def Config.zero : Config :=
  { CommType := "", AnkaUser := "", AnkaPassword := "", InstallerApp := "",
    SourceVMName := "", SourceVMTag := "", VMName := "", DiskSize := "",
    RAMSize := "", CPUCount := "", AlwaysFetch := false, UpdateAddons := false,
    RegistryName := "", RegistryURL := "", NodeCertPath := "", NodeKeyPath := "",
    CaRootPath := "", IsInsecure := false, PortForwardingRules := [],
    HWUUID := "", BootDelay := "", EnableHtt := false, DisableHtt := false,
    UseAnkaCP := false, StopVM := false }

/-- What `NewConfig` returns as its `error`: the decoder's error, or the
accumulated `*packer.MultiError` with its messages in order. -/
inductive ConfigError where
  | decode (text : String)
  | multi (errors : List String)
  deriving DecidableEq, Repr

/-- Go `strings.ContainsAny(s, chars)`. -/
def ContainsAny (s chars : String) : Bool :=
  s.toList.any (fun ch => chars.toList.contains ch)

/-- The loop over `c.PortForwardingRules` in `NewConfig`: for each rule in
order, a zero guest port appends an error, an empty rule name is replaced in the
slice by `randSeq(10)`. Returns the rules, the error list and the generator. -/
def rulesLoop : List PortForwardingRule → List String → Rand →
    List PortForwardingRule × List String × Rand
  | [], errs, r => ([], errs, r)
  | rule :: rest, errs, r =>
    let errs1 :=
      if rule.PortForwardingGuestPort = 0 then errs ++ ["guest port is required"] else errs
    if rule.PortForwardingRuleName = "" then
      let g := randSeq r 10
      let out := rulesLoop rest errs1 g.2
      ({ rule with PortForwardingRuleName := g.1 } :: out.1, out.2.1, out.2.2)
    else
      let out := rulesLoop rest errs1 r
      (rule :: out.1, out.2.1, out.2.2)

/-- Go `NewConfig`, from the result of `config.Decode` on: the returned
`(*Config, error)` pair as an `Except`, and the generator as the calls of
`randSeq` leave it. -/
def NewConfig (decoded : Except String Config) (random : Rand) :
    Except ConfigError Config × Rand :=
  match decoded with
  | .error err => (.error (.decode err), random)
  | .ok c0 =>
    let c1 := if c0.BootDelay = "" then { c0 with BootDelay := DEFAULT_BOOT_DELAY } else c0
    let errs0 : List String := []
    let c2 := if c1.CommType = "" then { c1 with CommType := "anka" } else c1
    let errs1 :=
      if c2.InstallerApp = "" ∧ c2.SourceVMName = "" then
        errs0 ++ ["installer_app or source_vm_name must be specified"]
      else errs0
    let errs2 :=
      if c2.InstallerApp ≠ "" ∧ c2.SourceVMName ≠ "" then
        errs1 ++ ["cannot specify both an installer_app and source_vm_name"]
      else errs1
    let errs3 :=
      if c2.VMName = "" then errs2 ++ ["please specify a name for your vm"] else errs2
    let errs4 :=
      if c2.SourceVMName ≠ "" ∧ ContainsAny c2.SourceVMName " \n" = true then
        errs3 ++ ["source_vm_name name contains spaces"]
      else errs3
    let looped :=
      if 0 < c2.PortForwardingRules.length then rulesLoop c2.PortForwardingRules errs4 random
      else (c2.PortForwardingRules, errs4, random)
    let c3 := { c2 with PortForwardingRules := looped.1 }
    if 0 < looped.2.1.length then (.error (.multi looped.2.1), looped.2.2)
    else (.ok c3, looped.2.2)

/-! ## `strconv.ParseInt(s, 10, bitSize)` -/

/-- The `Err` of a `*strconv.NumError`: `ErrSyntax` or `ErrRange`. -/
inductive NumErrKind where
  | ErrSyntax
  | ErrRange
  deriving DecidableEq, Repr

/-- Go `*strconv.NumError`: the failing function, the input, the reason. -/
structure NumError where
  Func : String
  Num : String
  Err : NumErrKind
  deriving DecidableEq, Repr

/-- The digit loop of `strconv.ParseUint(s, 10, bitSize)` from the accumulated
value `n`: a byte outside `0`..`9` is a syntax error, a value above
`2^bitSize - 1` a range error at the digit that exceeds it. -/
def parseUintLoop (bitSize : Nat) : List Char → Nat → Except NumErrKind Nat
  | [], n => .ok n
  | c :: cs, n =>
    if '0' ≤ c ∧ c ≤ '9' then
      let n1 := n * 10 + (c.toNat - '0'.toNat)
      if n1 > 2 ^ bitSize - 1 then .error .ErrRange else parseUintLoop bitSize cs n1
    else .error .ErrSyntax

/-- Go `strconv.ParseUint(s, 10, bitSize)` on the bytes of `s`. -/
def ParseUint (s : List Char) (bitSize : Nat) : Except NumErrKind Nat :=
  match s with
  | [] => .error .ErrSyntax
  | _ => parseUintLoop bitSize s 0

/-- Go `strconv.ParseInt(s, 10, bitSize)` for `0 < bitSize <= 64`: an optional
sign, then `ParseUint`, then the signed range check against `2^(bitSize-1)`. -/
def ParseInt (s : String) (bitSize : Nat) : Except NumError Int :=
  match s.toList with
  | [] => .error { Func := "ParseInt", Num := s, Err := .ErrSyntax }
  | c :: cs =>
    let neg := c = '-'
    let digits := if c = '+' ∨ c = '-' then cs else c :: cs
    match ParseUint digits bitSize with
    | .error .ErrSyntax => .error { Func := "ParseInt", Num := s, Err := .ErrSyntax }
    | .error .ErrRange => .error { Func := "ParseInt", Num := s, Err := .ErrRange }
    | .ok un =>
      let cutoff := 2 ^ (bitSize - 1)
      if ¬ neg ∧ un ≥ cutoff then .error { Func := "ParseInt", Num := s, Err := .ErrRange }
      else if neg ∧ un > cutoff then .error { Func := "ParseInt", Num := s, Err := .ErrRange }
      else .ok (if neg then - (un : Int) else (un : Int))

/-! ## The command client, as the create step sees it -/

/-- Go `client.CreateDiskParams`. -/
structure CreateDiskParams where
  DiskSize : String
  InstallerApp : String
  deriving DecidableEq, Repr

/-- Go `client.CreateParams`. -/
structure CreateParams where
  ImageID : String
  RamSize : String
  CPUCount : Int
  Name : String
  deriving DecidableEq, Repr

/-- Go `client.CloneParams`. -/
structure CloneParams where
  VMName : String
  SourceUUID : String
  deriving DecidableEq, Repr

/-- Go `client.DeleteParams`. -/
structure DeleteParams where
  VMName : String
  Force : Bool
  deriving DecidableEq, Repr

/-- Go `client.SuspendParams`. -/
structure SuspendParams where
  VMName : String
  deriving DecidableEq, Repr

/-- The fields of `client.DescribeResponse` the builder reads. -/
structure DescribeResponse where
  UUID : String
  CPUThreads : Int
  deriving DecidableEq, Repr

/-- One call of a client method, with its argument. -/
inductive Command where
  | CreateDisk (p : CreateDiskParams)
  | Create (p : CreateParams)
  | Describe (vmName : String)
  | Clone (p : CloneParams)
  | Delete (p : DeleteParams)
  | Suspend (p : SuspendParams)
  deriving DecidableEq, Repr

/-- The `*client.Client` behind the step. Its methods live outside the embedded
files, so each is an answer function: from the commands issued so far and the
argument to the method's result (an error is its text; for `Create`, whose
first result the step discards, and the methods returning only `error`,
`none` is `nil`). -/
structure Client where
  CreateDisk : List Command → CreateDiskParams → Except String String
  Create : List Command → CreateParams → Option String
  Describe : List Command → String → Except String DescribeResponse
  Clone : List Command → CloneParams → Option String
  Delete : List Command → DeleteParams → Option String
  Suspend : List Command → SuspendParams → Option String

/-! ## The run state (`multistep.StateBag`) -/

/-- An error value stored in the run state or shown to the user. -/
inductive GoError where
  | tool (text : String)
  | num (e : NumError)
  | errorf (text : String)
  deriving DecidableEq, Repr

/-- A value held in the state bag, by its dynamic type. -/
inductive Value where
  | config (c : Config)
  | client (c : Client)
  | ui
  | str (s : String)
  | err (e : GoError)
  | bool (b : Bool)

/-- Go `multistep.BasicStateBag`, as the log of its `Put`s, newest first: `Get`
finds the newest entry of a key, so the log reads like the map and also shows
which keys were written. -/
abbrev StateBag := List (String × Value)

/-- Go `state.Put(key, value)`. -/
def StateBag.Put (state : StateBag) (key : String) (value : Value) : StateBag :=
  (key, value) :: state

/-- Go `state.GetOk(key)`: the newest value under `key`, `none` when absent. -/
def StateBag.GetOk : StateBag → String → Option Value
  | [], _ => none
  | (k, v) :: rest, key => if k = key then some v else StateBag.GetOk rest key

/-- Go `multistep.StateCancelled`. -/
def StateCancelled : String := "cancelled"

/-- Go `multistep.StepAction`. -/
inductive StepAction where
  | ActionContinue
  | ActionHalt
  deriving DecidableEq, Repr

/-- A line sent to the `packer.Ui`: `ui.Say(text)` or `ui.Error(err.Error())`. -/
inductive UiLine where
  | Say (text : String)
  | Error (err : GoError)
  deriving DecidableEq, Repr

/-! ## `StepCreateVM` (`builder/anka/step_create_vm.go`) -/

/-- Go `StepCreateVM`: the client handle (`nil` until `Run` stores it) and the
name of the VM the step created (empty until the clone succeeded). -/
structure StepCreateVM where
  client : Option Client
  vmName : String

/-- The zero value `&StepCreateVM{}` the builder puts in its step list. -/
def StepCreateVM.zero : StepCreateVM := { client := none, vmName := "" }

/-- A fallible operation of `Run`: a client call or the parse of `cpu_count`. -/
inductive Op where
  | call (c : Command)
  | parseCPUCount (text : String)
  deriving DecidableEq, Repr

/-- A fallible operation `Run` executed, with the error it returned (`none`
for `nil`). -/
structure OpResult where
  op : Op
  err : Option GoError
  deriving DecidableEq, Repr

/-- Everything `Run` leaves behind: the action it returns, the step and the
state bag after it, the generator, the commands the client has received
(earlier ones included), the fallible operations it executed in order, and the
lines it sent to the UI. -/
structure RunResult where
  action : StepAction
  step : StepCreateVM
  state : StateBag
  random : Rand
  commands : List Command
  ops : List OpResult
  ui : List UiLine

/-- The client command of an operation, if it is one. -/
def Op.command : Op → Option Command
  | .call c => some c
  | .parseCPUCount _ => none

/-- The three lines every failing branch of `Run` ends with:
`state.Put("error", err); ui.Error(err.Error()); return multistep.ActionHalt`. -/
def haltWith (s : StepCreateVM) (state : StateBag) (random : Rand)
    (commands : List Command) (ops : List OpResult) (ui : List UiLine)
    (err : GoError) : RunResult :=
  { action := .ActionHalt, step := s, state := state.Put "error" (.err err),
    random := random, commands := commands, ops := ops, ui := ui ++ [.Error err] }

/-- The part of `Run` from `descr, err := s.client.Describe(sourceVM)` to the
end, common to both ways of obtaining `sourceVM`. -/
def describeAndClone (s : StepCreateVM) (cl : Client) (config : Config)
    (sourceVM : String) (state : StateBag) (random : Rand)
    (commands : List Command) (ops : List OpResult) (ui : List UiLine) : RunResult :=
  let cmdD := Command.Describe sourceVM
  match cl.Describe commands sourceVM with
  | .error err =>
    haltWith s state random (commands ++ [cmdD])
      (ops ++ [{ op := .call cmdD, err := some (.tool err) }]) ui (.tool err)
  | .ok descr =>
    let commands1 := commands ++ [cmdD]
    let ops1 := ops ++ [{ op := .call cmdD, err := none }]
    let named := if config.VMName = "" then
        let g := randSeq random 10
        ("anka-packer-" ++ g.1, g.2)
      else (config.VMName, random)
    let vmName := named.1
    let ui1 := ui ++
      [.Say ("Cloning source VM " ++ sourceVM ++ " into a new virtual machine " ++ vmName)]
    let cloneParams : CloneParams := { VMName := vmName, SourceUUID := descr.UUID }
    let cmdC := Command.Clone cloneParams
    match cl.Clone commands1 cloneParams with
    | some err =>
      haltWith s state named.2 (commands1 ++ [cmdC])
        (ops1 ++ [{ op := .call cmdC, err := some (.tool err) }]) ui1 (.tool err)
    | none =>
      { action := .ActionContinue,
        step := { s with vmName := vmName },
        state := state.Put "vm_name" (.str vmName),
        random := named.2,
        commands := commands1 ++ [cmdC],
        ops := ops1 ++ [{ op := .call cmdC, err := none }],
        ui := ui1 }

/-- Go `(*StepCreateVM).Run(state)`, with the generator and the commands the
client has already received. `none` is the panic of a failed type assertion on
`state.Get("config")`, `state.Get("ui")` or `state.Get("client")`. -/
def StepCreateVM.Run (s : StepCreateVM) (state : StateBag) (random : Rand)
    (commands : List Command) : Option RunResult :=
  match state.GetOk "config", state.GetOk "ui", state.GetOk "client" with
  | some (.config config), some .ui, some (.client cl) =>
    let s1 : StepCreateVM := { s with client := some cl }
    let sourceVM := config.SourceVMName
    if sourceVM = "" then
      let ui1 := [UiLine.Say "Creating a new disk from installer, this will take a while"]
      let diskParams : CreateDiskParams :=
        { DiskSize := config.DiskSize, InstallerApp := config.InstallerApp }
      let cmd1 := Command.CreateDisk diskParams
      match cl.CreateDisk commands diskParams with
      | .error err =>
        some (haltWith s1 state random (commands ++ [cmd1])
          [{ op := .call cmd1, err := some (.tool err) }] ui1 (.tool err))
      | .ok imageID =>
        let commands1 := commands ++ [cmd1]
        let ops1 : List OpResult := [{ op := .call cmd1, err := none }]
        match ParseInt config.CPUCount 32 with
        | .error e =>
          some (haltWith s1 state random commands1
            (ops1 ++ [{ op := .parseCPUCount config.CPUCount, err := some (.num e) }])
            ui1 (.num e))
        | .ok cpuCount =>
          let ops2 := ops1 ++ [{ op := .parseCPUCount config.CPUCount, err := none }]
          let g := randSeq random 10
          let sourceVM1 := "anka-disk-base-" ++ g.1
          let ui2 := ui1 ++ [.Say "Creating a new virtual machine for disk"]
          let createParams : CreateParams :=
            { ImageID := imageID, RamSize := config.RAMSize, CPUCount := cpuCount,
              Name := sourceVM1 }
          let cmd2 := Command.Create createParams
          match cl.Create commands1 createParams with
          | some err =>
            let err1 := GoError.errorf ("Error creating VM: " ++ err)
            some (haltWith s1 state g.2 (commands1 ++ [cmd2])
              (ops2 ++ [{ op := .call cmd2, err := some (.tool err) }]) ui2 err1)
          | none =>
            some (describeAndClone s1 cl config sourceVM1 state g.2 (commands1 ++ [cmd2])
              (ops2 ++ [{ op := .call cmd2, err := none }])
              (ui2 ++ [.Say ("VM " ++ sourceVM1 ++ " was created")]))
    else
      some (describeAndClone s1 cl config sourceVM state random commands [] [])
  | _, _, _ => none

/-- What `Cleanup` leaves behind: the step (a pointer receiver) and the state
bag after it, the commands the client has received, and the errors it
printed with `log.Println`. `Cleanup` returns nothing, so an error it does not
print is lost. -/
structure CleanupResult where
  step : StepCreateVM
  state : StateBag
  commands : List Command
  logged : List String

/-- Go `(*StepCreateVM).Cleanup(state)`. `nilClient` says what a method of
`*client.Client` does on a `nil` receiver, which is what `s.client` is when
`Run` never ran: `none` if the call panics, `some c` if it behaves as `c`.
The result is `none` when the call panics. -/
def StepCreateVM.Cleanup (nilClient : Option Client) (s : StepCreateVM)
    (state : StateBag) (commands : List Command) : Option CleanupResult :=
  match (match s.client with | some c => some c | none => nilClient) with
  | none => none
  | some cl =>
    match state.GetOk StateCancelled with
    | some _ =>
      let params : DeleteParams := { VMName := s.vmName, Force := true }
      match cl.Delete commands params with
      | some err =>
        some { step := s, state := state, commands := commands ++ [.Delete params],
               logged := [err] }
      | none =>
        some { step := s, state := state, commands := commands ++ [.Delete params],
               logged := [] }
    | none =>
      let params : SuspendParams := { VMName := s.vmName }
      match cl.Suspend commands params with
      | some err =>
        some { step := s, state := state, commands := commands ++ [.Suspend params],
               logged := [err] }
      | none =>
        some { step := s, state := state, commands := commands ++ [.Suspend params],
               logged := [] }

/-! ## `fmt.Errorf(format)` with no operands -/

/-- Go `fmt.tooLarge`. -/
def tooLarge (x : Nat) : Bool := decide (x > 1000000)

/-- Go `fmt.parsenum(s, start, end)` from `s[start:end]`: the number read, whether
one was read, and what follows it. On overflow the scan gives up and
returns `end`, that is nothing left. -/
def parsenum : List Char → Nat → Bool → Nat × Bool × List Char
  | [], num, isnum => (num, isnum, [])
  | c :: cs, num, isnum =>
    if '0' ≤ c ∧ c ≤ '9' then
      if tooLarge num = true then (0, false, [])
      else parsenum cs (num * 10 + (c.toNat - '0'.toNat)) true
    else (num, isnum, c :: cs)

/-- Go `fmt.parseArgNumber(format)` for a `format` that starts with `[`: how
many bytes the index takes and whether it is well formed. -/
def parseArgNumber (format : List Char) : Nat × Bool :=
  if format.length < 3 then (1, false)
  else
    let inner := (format.drop 1).takeWhile (fun c => c ≠ ']')
    if inner.length + 1 < format.length then
      let r := parsenum inner 0 false
      (inner.length + 2, r.2.1 && r.2.2.isEmpty)
    else (1, false)

/-- Go `(*pp).argNumber` when there are no operands: what is left of the
format, whether an index was found, and whether `goodArgNum` survives (an
index can never be in range, so any `[` clears it). -/
def argNumber (format : List Char) (good : Bool) : List Char × Bool × Bool :=
  match format with
  | '[' :: _ =>
    let r := parseArgNumber format
    (format.drop r.1, r.2, false)
  | _ => (format, false, good)

/-- One verb of Go `(*pp).doPrintf` with no operands, from the byte after the
`%`: flags, argument index, width, precision (a `.` counts as one only when a
byte follows it, Go's `i+1 < end`), index again, verb. Returns what
the verb writes and the rest of the format (`none` when the format ends
inside the verb). -/
def printVerb (afterPercent : List Char) : List Char × Option (List Char) :=
  let f1 := afterPercent.dropWhile (fun c => c = '#' ∨ c = '0' ∨ c = '+' ∨ c = '-' ∨ c = ' ')
  let a1 := argNumber f1 true
  -- width
  let w : List Char × List Char × Bool × Bool :=
    match a1.1 with
    | '*' :: t => ("%!(BADWIDTH)".toList, t, false, a1.2.2)
    | f =>
      let r := parsenum f 0 false
      ([], r.2.2, a1.2.1, if a1.2.1 && r.2.1 then false else a1.2.2)
  -- precision
  let p : List Char × List Char × Bool × Bool :=
    match w.2.1 with
    | '.' :: c :: t0 =>
      let t := c :: t0
      let good := if w.2.2.1 then false else w.2.2.2
      let a2 := argNumber t good
      match a2.1 with
      | '*' :: t1 => (w.1 ++ "%!(BADPREC)".toList, t1, false, a2.2.2)
      | f => (w.1, (parsenum f 0 false).2.2, a2.2.1, a2.2.2)
    | f => (w.1, f, w.2.2.1, w.2.2.2)
  let a3 := if p.2.2.1 then (p.2.1, true, p.2.2.2) else argNumber p.2.1 p.2.2.2
  match a3.1 with
  | [] => (p.1 ++ "%!(NOVERB)".toList, none)
  | verb :: rest =>
    if verb = '%' then (p.1 ++ ['%'], some rest)
    else if a3.2.2 = false then (p.1 ++ "%!".toList ++ [verb] ++ "(BADINDEX)".toList, some rest)
    else (p.1 ++ "%!".toList ++ [verb] ++ "(MISSING)".toList, some rest)

/-- Go `(*pp).doPrintf(format, nil)`: copy up to the next `%`, print the verb,
repeat. `fuel` bounds the number of verbs; the length of the format is enough. -/
def doPrintf : Nat → List Char → List Char
  | 0, _ => []
  | fuel + 1, format =>
    let plain := format.takeWhile (fun c => c ≠ '%')
    match format.dropWhile (fun c => c ≠ '%') with
    | [] => plain
    | _ :: afterPercent =>
      match printVerb afterPercent with
      | (out, none) => plain ++ out
      | (out, some rest) => plain ++ out ++ doPrintf fuel rest

/-- The text of the error Go `fmt.Errorf(format)` builds when it is called
with a format and no operands. -/
def Errorf (format : String) : String :=
  String.mk (doPrintf (format.length + 1) format.toList)

/-! ## The registry client (`client/client_registry.go`) -/

/-- Go `client.MachineReadableOutput`, the envelope the tool prints. -/
structure MachineReadableOutput where
  Status : String
  Body : String
  ExceptionType : String
  Message : String
  deriving DecidableEq, Repr

/-- The zero value `MachineReadableOutput{}`. -/
def MachineReadableOutput.zero : MachineReadableOutput :=
  { Status := "", Body := "", ExceptionType := "", Message := "" }

/-- Go `RegistryListResponse`. -/
structure RegistryListResponse where
  Latest : String
  ID : String
  Name : String
  deriving DecidableEq, Repr

/-- Go `RegistryParams`. -/
structure RegistryParams where
  RegistryName : String
  RegistryURL : String
  NodeCertPath : String
  NodeKeyPath : String
  CaRootPath : String
  IsInsecure : Bool
  deriving DecidableEq, Repr

/-- Go `RegistryPushParams`. -/
structure RegistryPushParams where
  VMID : String
  Tag : String
  Description : String
  RemoteVM : String
  Local : Bool
  deriving DecidableEq, Repr

/-- The package function `runRegistryCommand(registryParams, args...)`, defined
outside the embedded file: an answer function from the parameters and the
argument list to the envelope or the error text. -/
abbrev RunRegistryCommand := RegistryParams → List String → Except String MachineReadableOutput

/-- Go `(*AnkaClient).RegistryList`. `unmarshal` is `json.Unmarshal` into a
`[]RegistryListResponse`: what it decoded and its error. Errors are their text.
The `log.Print` line is left out. -/
def RegistryList (runRegistryCommand : RunRegistryCommand)
    (unmarshal : String → List RegistryListResponse × Option String)
    (registryParams : RegistryParams) : List RegistryListResponse × Option String :=
  match runRegistryCommand registryParams ["list"] with
  | .error err => ([], some err)
  | .ok output =>
    if output.Status ≠ "OK" then ([], some (Errorf output.Message))
    else
      let r := unmarshal output.Body
      match r.2 with
      | some err => (r.1, some err)
      | none => (r.1, none)

/-- The argument list `RegistryPush` builds in `cmdArgs`. -/
def pushArgs (pushParams : RegistryPushParams) : List String :=
  let a0 := ["push"]
  let a1 := if pushParams.Tag ≠ "" then a0 ++ ["--tag", pushParams.Tag] else a0
  let a2 := if pushParams.Description ≠ "" then a1 ++ ["--description", pushParams.Description]
    else a1
  let a3 := if pushParams.RemoteVM ≠ "" then a2 ++ ["--remote-vm", pushParams.RemoteVM] else a2
  let a4 := if pushParams.Local = true then a3 ++ ["--local"] else a3
  a4 ++ [pushParams.VMID]

/-- Go `(*AnkaClient).RegistryPush`: the returned error's text, `none` for
`nil`. The `log.Print` line is left out. -/
def RegistryPush (runRegistryCommand : RunRegistryCommand)
    (registryParams : RegistryParams) (pushParams : RegistryPushParams) : Option String :=
  match runRegistryCommand registryParams (pushArgs pushParams) with
  | .error err => some err
  | .ok output =>
    if output.Status ≠ "OK" then some (Errorf output.Message) else none

/-- An HTTP response as `registryRESTRequest` uses it: the status code and what
`ioutil.ReadAll(resp.Body)` yields, the bytes or a read error. -/
structure HttpResponse where
  StatusCode : Int
  Body : Except String String
  deriving Repr

/-- The HTTP machinery behind `registryRESTRequest`: `http.NewRequest` (its
error, `none` for `nil`) and `httpClient.Do` on the request, both from
method, URL and request body. -/
structure Transport where
  NewRequest : String → String → Option String → Option String
  Do : String → String → Option String → Except String HttpResponse

/-- What `registryRESTRequest` does with a response, in order. -/
inductive RestEvent where
  | Do
  | ReadAll
  | parseOutput (body : String)
  deriving DecidableEq, Repr

/-- Go `registryRESTRequest(method, url, body)`: the returned pair and the
events. `parseOutput` is the package's parser, defined outside the embedded
file, returning the envelope and its error. The `log.Printf` lines are left
out. -/
def registryRESTRequest (t : Transport)
    (parseOutput : String → MachineReadableOutput × Option String)
    (method url : String) (body : Option String) :
    (MachineReadableOutput × Option String) × List RestEvent :=
  match t.NewRequest method url body with
  | some err => ((MachineReadableOutput.zero, some err), [])
  | none =>
    match t.Do method url body with
    | .error err => ((MachineReadableOutput.zero, some err), [.Do])
    | .ok resp =>
      if resp.StatusCode = 200 then
        match resp.Body with
        | .error err => ((MachineReadableOutput.zero, some err), [.Do, .ReadAll])
        | .ok bytes => (parseOutput bytes, [.Do, .ReadAll, .parseOutput bytes])
      else
        ((MachineReadableOutput.zero,
          some ("unsupported http response code: " ++ toString resp.StatusCode)), [.Do])

/-- Modelled from the spec: the package constant `statusOK`, declared outside
the embedded file; the spec names the success status `"OK"`. -/
def statusOK : String := "OK"

/-- Go `(*AnkaClient).RegistryRevert(url, id)`: the returned error's text,
`none` for `nil`. -/
def RegistryRevert (t : Transport)
    (parseOutput : String → MachineReadableOutput × Option String)
    (url id : String) : Option String :=
  let r := registryRESTRequest t parseOutput "DELETE" (url ++ "/registry/revert?id=" ++ id) none
  match r.1.2 with
  | some err => some err
  | none =>
    if r.1.1.Status ≠ statusOK then
      some ("failed to revert VM on registry: " ++ r.1.1.Message)
    else none

/-! ## The hyperthreading step -/

/-- The error the hyperthreading step stores when it halts. -/
inductive HttError where
  | ConfigConflict
  | tool (text : String)
  deriving DecidableEq, Repr

/-- What a run of the hyperthreading step leaves behind: the action, the tool
invocations in order (verb and arguments), and the stored error. -/
structure HttResult where
  action : StepAction
  invocations : List (List String)
  error : Option HttError
  deriving DecidableEq, Repr

/-- The command client of the spec, `Invoke(command, args)`: from the verb and
arguments to the parsed result or the error text. -/
abbrev Invoke := List String → Except String MachineReadableOutput

/-- The rest of the hyperthreading step once the VM was described: show,
forced stop, modify with `flag`; `Continue` iff the modify status is `"OK"`. -/
def httApply (invoke : Invoke) (vmName flag : String) (done : List (List String)) : HttResult :=
  let showCmd := ["show", vmName]
  match invoke showCmd with
  | .error e => { action := .ActionHalt, invocations := done ++ [showCmd], error := some (.tool e) }
  | .ok _ =>
    let stopCmd := ["stop", "--force", vmName]
    match invoke stopCmd with
    | .error e =>
      { action := .ActionHalt, invocations := done ++ [showCmd, stopCmd], error := some (.tool e) }
    | .ok _ =>
      let modifyCmd := ["modify", vmName, "set", "cpu", flag]
      match invoke modifyCmd with
      | .error e =>
        { action := .ActionHalt, invocations := done ++ [showCmd, stopCmd, modifyCmd],
          error := some (.tool e) }
      | .ok r =>
        if r.Status = "OK" then
          { action := .ActionContinue, invocations := done ++ [showCmd, stopCmd, modifyCmd],
            error := none }
        else
          { action := .ActionHalt, invocations := done ++ [showCmd, stopCmd, modifyCmd],
            error := some (.tool r.Message) }

/-- Modelled from the spec: `StepSetHyperThreading.Run`, whose source file is
not among the sources (only its test is). Neither flag set: `Continue`, nothing
invoked. Both set: `Halt` with a configuration-conflict error. Otherwise the VM
is described; when disabling and the thread count (read from the describe
result by `threads`) is already 0 the step continues; otherwise show, forced
stop and modify with `--htt` or `--no-htt`. A failing command halts with the
tool's error. -/
def StepSetHyperThreadingRun (config : Config) (vmName : String) (invoke : Invoke)
    (threads : MachineReadableOutput → Int) : HttResult :=
  if config.EnableHtt = false ∧ config.DisableHtt = false then
    { action := .ActionContinue, invocations := [], error := none }
  else if config.EnableHtt = true ∧ config.DisableHtt = true then
    { action := .ActionHalt, invocations := [], error := some .ConfigConflict }
  else
    let describeCmd := ["describe", vmName]
    match invoke describeCmd with
    | .error e =>
      { action := .ActionHalt, invocations := [describeCmd], error := some (.tool e) }
    | .ok d =>
      if config.DisableHtt = true ∧ threads d = 0 then
        { action := .ActionContinue, invocations := [describeCmd], error := none }
      else
        httApply invoke vmName (if config.EnableHtt = true then "--htt" else "--no-htt")
          [describeCmd]

/-- The fake client of the test with empty `Results` and `Errors` maps: every
command finds no entry, so it answers the zero envelope and a `nil` error. -/
def emptyTestClient : Invoke := fun _ => .ok MachineReadableOutput.zero

/-- How `NewConfig` may change a port-forwarding rule `a` into `b`: the ports
stay, a non-empty name stays, an empty name becomes 10 letters of the
alphabet. -/
def RuleKept (a b : PortForwardingRule) : Prop :=
  b.PortForwardingGuestPort = a.PortForwardingGuestPort ∧
  b.PortForwardingHostPort = a.PortForwardingHostPort ∧
  (a.PortForwardingRuleName ≠ "" → b.PortForwardingRuleName = a.PortForwardingRuleName) ∧
  (a.PortForwardingRuleName = "" →
    b.PortForwardingRuleName.length = 10 ∧ ∀ ch ∈ b.PortForwardingRuleName.toList, ch ∈ letters)

/-- The configuration `NewConfig` validates: the decoded one with the two
defaults (`boot_delay`, communicator type) filled in. -/
def withDefaults (c0 : Config) : Config :=
  let c1 := if c0.BootDelay = "" then { c0 with BootDelay := DEFAULT_BOOT_DELAY } else c0
  if c1.CommType = "" then { c1 with CommType := "anka" } else c1

/-- The errors `NewConfig` has collected when it reaches the rule loop. -/
def errorsBeforeRules (c2 : Config) : List String :=
  let errs1 :=
    if c2.InstallerApp = "" ∧ c2.SourceVMName = "" then
      [] ++ ["installer_app or source_vm_name must be specified"]
    else []
  let errs2 :=
    if c2.InstallerApp ≠ "" ∧ c2.SourceVMName ≠ "" then
      errs1 ++ ["cannot specify both an installer_app and source_vm_name"]
    else errs1
  let errs3 :=
    if c2.VMName = "" then errs2 ++ ["please specify a name for your vm"] else errs2
  if c2.SourceVMName ≠ "" ∧ ContainsAny c2.SourceVMName " \n" = true then
    errs3 ++ ["source_vm_name name contains spaces"]
  else errs3

/-- The rule phase of `NewConfig`: the loop, entered when the list is not
empty. -/
def rulesPhase (rules : List PortForwardingRule) (errs : List String) (r : Rand) :
    List PortForwardingRule × List String × Rand :=
  if 0 < rules.length then rulesLoop rules errs r else (rules, errs, r)

/-! ## Concrete inputs used to exercise the statements -/

/-- A generator with a fixed sequence of answers: the call after `k` earlier
ones returns `7 * k + 3` reduced into the range. -/
def sampleRand : Rand :=
  { answer := fun asked n h => ⟨(7 * asked.length + 3) % n, Nat.mod_lt _ h⟩, asked := [] }

/-- A decoded configuration that builds from an installer: `installer_app` set,
no `source_vm_name`, `vm_name = "test-vm"`, two port-forwarding rules of which
the first has no name. -/
def installerConfig : Config :=
  { Config.zero with
    InstallerApp := "/Applications/Install macOS.app", VMName := "test-vm",
    DiskSize := "40G", RAMSize := "4G", CPUCount := "2",
    PortForwardingRules :=
      [{ PortForwardingGuestPort := 80, PortForwardingHostPort := 8080,
         PortForwardingRuleName := "" },
       { PortForwardingGuestPort := 22, PortForwardingHostPort := 0,
         PortForwardingRuleName := "ssh" }] }

/-- A decoded configuration that names both an installer and a source VM. -/
def bothSourcesConfig : Config :=
  { installerConfig with SourceVMName := "base-vm" }

/-- A client whose every call succeeds. -/
def okClient : Client :=
  { CreateDisk := fun _ _ => .ok "image-1"
    Create := fun _ _ => none
    Describe := fun _ _ => .ok { UUID := "uuid-1", CPUThreads := 4 }
    Clone := fun _ _ => none
    Delete := fun _ _ => none
    Suspend := fun _ _ => none }

/-- A client whose `CreateDisk` fails and whose other calls succeed. -/
def noDiskClient : Client :=
  { okClient with CreateDisk := fun _ _ => .error "no space left on device" }

/-- The state bag the builder hands to the first step: configuration, UI and
client. -/
def initialState (config : Config) (cl : Client) : StateBag :=
  [("config", .config config), ("ui", .ui), ("client", .client cl)]

/-- What the client answers to a fallible operation, given the commands it
has already received: the error the operation returns, `none` for `nil`. -/
def Op.answer (cl : Client) (received : List Command) : Op → Option GoError
  | .call (.CreateDisk p) =>
    match cl.CreateDisk received p with
    | .error e => some (.tool e)
    | .ok _ => none
  | .call (.Create p) => (cl.Create received p).map GoError.tool
  | .call (.Describe vmName) =>
    match cl.Describe received vmName with
    | .error e => some (.tool e)
    | .ok _ => none
  | .call (.Clone p) => (cl.Clone received p).map GoError.tool
  | .call (.Delete p) => (cl.Delete received p).map GoError.tool
  | .call (.Suspend p) => (cl.Suspend received p).map GoError.tool
  | .parseCPUCount text =>
    match ParseInt text 32 with
    | .error e => some (.num e)
    | .ok _ => none

/-- The client commands among a list of executed operations, in order. -/
def opCommands (ops : List OpResult) : List Command :=
  ops.filterMap (fun r => r.op.command)

/-- Every logged result is what the client answered to that operation, given
the commands it had received before it. -/
def opsAnswered (cl : Client) : List Command → List OpResult → Prop
  | _, [] => True
  | received, r :: rest =>
    r.err = Op.answer cl received r.op ∧ opsAnswered cl (received ++ r.op.command.toList) rest

/-- The argument of `CreateDisk` in `Run` (lines 35-38). -/
def diskParams (config : Config) : CreateDiskParams :=
  { DiskSize := config.DiskSize, InstallerApp := config.InstallerApp }

/-- The name `Run` gives the base VM it creates (line 52), from the generator
as `Run` received it. -/
def baseVMName (random : Rand) : String := "anka-disk-base-" ++ (randSeq random 10).1

/-- The argument of `Create` in `Run` (lines 55-60). -/
def createParams (config : Config) (imageID : String) (cpuCount : Int) (random : Rand) :
    CreateParams :=
  { ImageID := imageID, RamSize := config.RAMSize, CPUCount := cpuCount,
    Name := baseVMName random }

/-- The argument of `Clone` in `Run` (lines 78-87): the configured `vm_name`, or
`anka-packer-` and 10 letters from the generator as it is at that point, and
the UUID the describe call returned. -/
def cloneParams (config : Config) (random : Rand) (descr : DescribeResponse) : CloneParams :=
  { VMName := if config.VMName = "" then "anka-packer-" ++ (randSeq random 10).1
      else config.VMName,
    SourceUUID := descr.UUID }

/-- The run halted: it returned `Halt` after issuing exactly the commands
`issued`, its one write to the state bag is `err` under `error`, the last UI
line is that error, and the step's VM name is as it was. -/
def Halted (out : RunResult) (s : StepCreateVM) (state : StateBag)
    (commands issued : List Command) (err : GoError) : Prop :=
  out.action = .ActionHalt ∧ out.commands = commands ++ issued ∧
  out.state = state.Put "error" (.err err) ∧ out.ui.getLast? = some (.Error err) ∧
  out.step.vmName = s.vmName

/-- The run continued: it returned `Continue` after issuing exactly the commands
`issued`, its one write to the state bag is `vmName` under `vm_name`, and the
step holds that name. -/
def Continued (out : RunResult) (state : StateBag) (commands issued : List Command)
    (vmName : String) : Prop :=
  out.action = .ActionContinue ∧ out.commands = commands ++ issued ∧
  out.state = state.Put "vm_name" (.str vmName) ∧ out.step.vmName = vmName

/-- What `Run` does from the describe call on, by the client's answers, when it
has issued `before` and the source VM is `sourceVM`: `Describe` is called and
its failure halts; then `Clone` is called and its failure halts; when both
succeed the run continues. -/
def TailTable (out : RunResult) (s : StepCreateVM) (state : StateBag) (commands : List Command)
    (cl : Client) (config : Config) (sourceVM : String) (random : Rand)
    (before : List Command) : Prop :=
  (∀ e, cl.Describe (commands ++ before) sourceVM = .error e →
    Halted out s state commands (before ++ [.Describe sourceVM]) (.tool e)) ∧
  (∀ d e, cl.Describe (commands ++ before) sourceVM = .ok d →
    cl.Clone (commands ++ before ++ [.Describe sourceVM]) (cloneParams config random d) = some e →
    Halted out s state commands
      (before ++ [.Describe sourceVM, .Clone (cloneParams config random d)]) (.tool e)) ∧
  (∀ d, cl.Describe (commands ++ before) sourceVM = .ok d →
    cl.Clone (commands ++ before ++ [.Describe sourceVM]) (cloneParams config random d) = none →
    Continued out state commands
      (before ++ [.Describe sourceVM, .Clone (cloneParams config random d)])
      (cloneParams config random d).VMName)

/-- What `Run` does, by the answers of its five fallible operations. Without a
source VM: `CreateDisk` is called and its failure halts; then `cpu_count` is
parsed and its failure halts; then `Create` is called and its failure halts
(the stored error wraps the client's); then the describe-and-clone part runs
on the generated base VM. With a source VM the describe-and-clone part runs on
it at once. -/
def RunTable (out : RunResult) (s : StepCreateVM) (state : StateBag) (random : Rand)
    (commands : List Command) (config : Config) (cl : Client) : Prop :=
  (config.SourceVMName = "" →
    (∀ e, cl.CreateDisk commands (diskParams config) = .error e →
      Halted out s state commands [.CreateDisk (diskParams config)] (.tool e)) ∧
    (∀ imageID e, cl.CreateDisk commands (diskParams config) = .ok imageID →
      ParseInt config.CPUCount 32 = .error e →
      Halted out s state commands [.CreateDisk (diskParams config)] (.num e)) ∧
    (∀ imageID cpuCount e, cl.CreateDisk commands (diskParams config) = .ok imageID →
      ParseInt config.CPUCount 32 = .ok cpuCount →
      cl.Create (commands ++ [.CreateDisk (diskParams config)])
        (createParams config imageID cpuCount random) = some e →
      Halted out s state commands
        [.CreateDisk (diskParams config), .Create (createParams config imageID cpuCount random)]
        (.errorf ("Error creating VM: " ++ e))) ∧
    (∀ imageID cpuCount, cl.CreateDisk commands (diskParams config) = .ok imageID →
      ParseInt config.CPUCount 32 = .ok cpuCount →
      cl.Create (commands ++ [.CreateDisk (diskParams config)])
        (createParams config imageID cpuCount random) = none →
      TailTable out s state commands cl config (baseVMName random) (randSeq random 10).2
        [.CreateDisk (diskParams config),
         .Create (createParams config imageID cpuCount random)])) ∧
  (config.SourceVMName ≠ "" →
    TailTable out s state commands cl config config.SourceVMName random [])

/-- The describe call and the clone call both succeed, for the client that has
received `received`. -/
def TailSucceeds (cl : Client) (config : Config) (sourceVM : String) (random : Rand)
    (received : List Command) : Prop :=
  ∃ d, cl.Describe received sourceVM = .ok d ∧
    cl.Clone (received ++ [.Describe sourceVM]) (cloneParams config random d) = none

/-- None of the fallible operations of `Run` fails: without a source VM
`CreateDisk`, the parse of `cpu_count`, `Create`, `Describe` and `Clone` all
succeed; with one, `Describe` and `Clone` do. -/
def AllSucceed (config : Config) (cl : Client) (random : Rand) (commands : List Command) :
    Prop :=
  (config.SourceVMName = "" →
    ∃ imageID cpuCount, cl.CreateDisk commands (diskParams config) = .ok imageID ∧
      ParseInt config.CPUCount 32 = .ok cpuCount ∧
      cl.Create (commands ++ [.CreateDisk (diskParams config)])
        (createParams config imageID cpuCount random) = none ∧
      TailSucceeds cl config (baseVMName random) (randSeq random 10).2
        (commands ++ [.CreateDisk (diskParams config),
          .Create (createParams config imageID cpuCount random)])) ∧
  (config.SourceVMName ≠ "" → TailSucceeds cl config config.SourceVMName random commands)

/-- The one command `Cleanup` issues for the VM name the step holds: a forced
`Delete` when the cancelled marker is in the state bag, a `Suspend` otherwise. -/
def cleanupCommand (state : StateBag) (vmName : String) : Command :=
  if (state.GetOk StateCancelled).isSome then .Delete { VMName := vmName, Force := true }
  else .Suspend { VMName := vmName }

/-- What the client answers to the one command of `Cleanup`: the error of the
forced `Delete` or of the `Suspend`, `none` for `nil`. -/
def cleanupAnswer (cl : Client) (state : StateBag) (vmName : String)
    (received : List Command) : Option String :=
  if (state.GetOk StateCancelled).isSome then
    cl.Delete received { VMName := vmName, Force := true }
  else cl.Suspend received { VMName := vmName }

/-- A client whose `Suspend` and `Delete` fail, as they do for a VM that does
not exist, and whose `CreateDisk` fails too. -/
def noVMClient : Client :=
  { noDiskClient with
    Delete := fun _ p => some ("VM not found: " ++ p.VMName)
    Suspend := fun _ p => some ("VM not found: " ++ p.VMName) }

/-- The state bag of a run the driver has marked as cancelled. -/
def cancelled (state : StateBag) : StateBag := state.Put StateCancelled (.bool true)

/-- A registry command runner whose tool answers a non-OK status with a message
that contains a percent sign. -/
def diskFullRunner : RunRegistryCommand := fun _ _ =>
  .ok { Status := "ERROR", Body := "", ExceptionType := "RegistryException",
        Message := "disk is 100% full" }

/-- Registry parameters of a sample run. -/
def sampleRegistry : RegistryParams :=
  { RegistryName := "main", RegistryURL := "https://registry.example:8089", NodeCertPath := "",
    NodeKeyPath := "", CaRootPath := "", IsInsecure := false }

/-- Push parameters of a sample run. -/
def samplePush : RegistryPushParams :=
  { VMID := "test-vm", Tag := "v1", Description := "", RemoteVM := "", Local := false }

/-- A parser that accepts every body as an OK envelope carrying it. -/
def okParser : String → MachineReadableOutput × Option String := fun body =>
  ({ Status := "OK", Body := body, ExceptionType := "", Message := "" }, none)

/-- A transport that answers HTTP 200 with a body whose read breaks off. -/
def brokenBodyTransport : Transport :=
  { NewRequest := fun _ _ _ => none
    Do := fun _ _ _ => .ok { StatusCode := 200, Body := .error "unexpected EOF" } }

/-- An HTTP 200 response with a readable body. -/
def okResponse : HttpResponse :=
  { StatusCode := 200, Body := .ok "\x7b\"status\":\"OK\"\x7d" }

/-- A transport that answers every request with `okResponse`. -/
def okTransport : Transport :=
  { NewRequest := fun _ _ _ => none
    Do := fun _ _ _ => .ok okResponse }

/-- The configuration of the test case "conflicting htt values". -/
def conflictingHttConfig : Config :=
  { Config.zero with EnableHtt := true, DisableHtt := true }

/-! ## Properties of `randSeq` and `NewConfig` -/

theorem letters_length : letters.length = 52 := by decide

theorem letters_alpha : ∀ c ∈ letters, ('a' ≤ c ∧ c ≤ 'z') ∨ ('A' ≤ c ∧ c ≤ 'Z') := by
  decide

theorem randRunes_length (r : Rand) (n : Nat) : (randRunes r n).1.length = n := by
  induction n generalizing r with
  | zero => rfl
  | succ k ih => simp [randRunes, ih]

theorem randRunes_mem (r : Rand) (n : Nat) : ∀ c ∈ (randRunes r n).1, c ∈ letters := by
  induction n generalizing r with
  | zero => intro c hc; simp [randRunes] at hc
  | succ k ih =>
    intro c hc
    simp only [randRunes, List.mem_cons] at hc
    rcases hc with h | h
    · rw [h]; exact List.get_mem _ _ _
    · exact ih _ c h

theorem randSeq_length (r : Rand) (n : Nat) : (randSeq r n).1.length = n := by
  simp [randSeq, String.length, randRunes_length]

theorem randSeq_mem (r : Rand) (n : Nat) : ∀ c ∈ (randSeq r n).1.toList, c ∈ letters := by
  intro c hc
  exact randRunes_mem r n c (by simpa [randSeq] using hc)

/-- C5. For every length `n` and every state of the random source, `randSeq(n)`
is a string of exactly `n` characters, each one of the 52 declared letters; the
generated names (`n = 10`) have length 10, are not empty and use only that
alphabet. -/
theorem randSeq_spec (r : Rand) (n : Nat) :
    ((randSeq r n).1.length = n ∧ ∀ c ∈ (randSeq r n).1.toList, c ∈ letters) ∧
    letters.length = 52 ∧
    (∀ c ∈ letters, ('a' ≤ c ∧ c ≤ 'z') ∨ ('A' ≤ c ∧ c ≤ 'Z')) ∧
    ((randSeq r 10).1.length = 10 ∧ (randSeq r 10).1 ≠ "" ∧
      ∀ c ∈ (randSeq r 10).1.toList, c ∈ letters) := by
  refine ⟨⟨randSeq_length r n, randSeq_mem r n⟩, letters_length, letters_alpha,
    randSeq_length r 10, ?_, randSeq_mem r 10⟩
  intro h
  have := randSeq_length r 10
  rw [h] at this
  simp at this

theorem rulesLoop_errs (rules : List PortForwardingRule) (errs : List String) (r : Rand) :
    ∃ more, (rulesLoop rules errs r).2.1 = errs ++ more := by
  induction rules generalizing errs r with
  | nil => exact ⟨[], by simp [rulesLoop]⟩
  | cons rule rest ih =>
    simp only [rulesLoop]
    split
    · obtain ⟨more, hm⟩ := ih
        (if rule.PortForwardingGuestPort = 0 then errs ++ ["guest port is required"] else errs)
        (randSeq r 10).2
      rw [hm]
      split
      · exact ⟨"guest port is required" :: more, by simp⟩
      · exact ⟨more, rfl⟩
    · obtain ⟨more, hm⟩ := ih
        (if rule.PortForwardingGuestPort = 0 then errs ++ ["guest port is required"] else errs) r
      rw [hm]
      split
      · exact ⟨"guest port is required" :: more, by simp⟩
      · exact ⟨more, rfl⟩

theorem rulesLoop_kept (rules : List PortForwardingRule) (errs : List String) (r : Rand) :
    List.Forall₂ RuleKept rules (rulesLoop rules errs r).1 := by
  induction rules generalizing errs r with
  | nil => simp [rulesLoop]
  | cons rule rest ih =>
    simp only [rulesLoop]
    split
    · rename_i hname
      refine List.Forall₂.cons ⟨rfl, rfl, fun h => absurd hname h, fun _ => ?_⟩ (ih _ _)
      exact ⟨randSeq_length r 10, randSeq_mem r 10⟩
    · rename_i hname
      exact List.Forall₂.cons ⟨rfl, rfl, fun _ => rfl, fun h => absurd h hname⟩ (ih _ _)

/-- The error list `NewConfig` tests at its end extends the one it had before
the rule loop. -/
theorem rulesPhase_errs (rules : List PortForwardingRule) (errs : List String) (r : Rand) :
    ∃ more, (rulesPhase rules errs r).2.1 = errs ++ more := by
  unfold rulesPhase
  split
  · exact rulesLoop_errs rules errs r
  · exact ⟨[], by simp⟩

theorem rulesPhase_kept (rules : List PortForwardingRule) (errs : List String) (r : Rand) :
    List.Forall₂ RuleKept rules (rulesPhase rules errs r).1 := by
  unfold rulesPhase
  split
  · exact rulesLoop_kept rules errs r
  · rename_i h
    have : rules = [] := by
      cases rules with
      | nil => rfl
      | cons a t => simp at h
    subst this
    exact List.Forall₂.nil

/-- `NewConfig` on a decoded configuration, by its three phases: defaults,
the checks before the rule loop, the rule loop. -/
theorem NewConfig_phases (c : Config) (random : Rand) :
    NewConfig (.ok c) random =
      (if 0 < (rulesPhase (withDefaults c).PortForwardingRules
            (errorsBeforeRules (withDefaults c)) random).2.1.length then
        (.error (.multi (rulesPhase (withDefaults c).PortForwardingRules
            (errorsBeforeRules (withDefaults c)) random).2.1),
         (rulesPhase (withDefaults c).PortForwardingRules
            (errorsBeforeRules (withDefaults c)) random).2.2)
      else
        (.ok { withDefaults c with PortForwardingRules :=
            (rulesPhase (withDefaults c).PortForwardingRules
              (errorsBeforeRules (withDefaults c)) random).1 },
         (rulesPhase (withDefaults c).PortForwardingRules
            (errorsBeforeRules (withDefaults c)) random).2.2)) := rfl

theorem withDefaults_fields (c : Config) :
    (withDefaults c).InstallerApp = c.InstallerApp ∧
    (withDefaults c).SourceVMName = c.SourceVMName ∧
    (withDefaults c).VMName = c.VMName ∧
    (withDefaults c).PortForwardingRules = c.PortForwardingRules := by
  unfold withDefaults
  dsimp only
  split <;> split <;> simp

theorem errorsBeforeRules_nil (c : Config) (h : errorsBeforeRules c = []) :
    ¬ (c.InstallerApp = "" ∧ c.SourceVMName = "") ∧
    ¬ (c.InstallerApp ≠ "" ∧ c.SourceVMName ≠ "") ∧ c.VMName ≠ "" := by
  unfold errorsBeforeRules at h
  dsimp only at h
  refine ⟨fun h1 => ?_, fun h2 => ?_, fun h3 => ?_⟩
  · rw [if_pos h1] at h
    repeat' split at h
    all_goals simp at h
  · rw [if_pos h2] at h
    repeat' split at h
    all_goals simp at h
  · rw [if_pos h3] at h
    repeat' split at h
    all_goals simp at h

/-- What an accepted configuration tells about the decoded one: neither
source error fired, and the fields are the decoded ones up to the defaults and
the rule loop. -/
theorem NewConfig_ok_inv (c c' : Config) (random : Rand)
    (h : (NewConfig (.ok c) random).1 = .ok c') :
    ¬ (c.InstallerApp = "" ∧ c.SourceVMName = "") ∧
    ¬ (c.InstallerApp ≠ "" ∧ c.SourceVMName ≠ "") ∧
    c'.InstallerApp = c.InstallerApp ∧ c'.SourceVMName = c.SourceVMName ∧
    List.Forall₂ RuleKept c.PortForwardingRules c'.PortForwardingRules := by
  rw [NewConfig_phases] at h
  obtain ⟨hI, hS, hV, hR⟩ := withDefaults_fields c
  obtain ⟨more, hm⟩ := rulesPhase_errs (withDefaults c).PortForwardingRules
    (errorsBeforeRules (withDefaults c)) random
  have hk := rulesPhase_kept (withDefaults c).PortForwardingRules
    (errorsBeforeRules (withDefaults c)) random
  generalize rulesPhase (withDefaults c).PortForwardingRules
    (errorsBeforeRules (withDefaults c)) random = L at h hm hk
  split at h
  · simp at h
  · rename_i hlen
    simp only [Except.ok.injEq] at h
    rw [hm] at hlen
    have hnil : errorsBeforeRules (withDefaults c) = [] := by
      cases hE : errorsBeforeRules (withDefaults c) with
      | nil => rfl
      | cons a t => rw [hE] at hlen; simp at hlen
    obtain ⟨h1, h2, _⟩ := errorsBeforeRules_nil _ hnil
    rw [hI, hS] at h1 h2
    subst h
    refine ⟨h1, h2, hI, hS, ?_⟩
    rw [hR] at hk
    exact hk

/-- A configuration with a source error is rejected with a `MultiError` that
carries the error's message. -/
theorem NewConfig_rejects (c : Config) (random : Rand) (msg : String)
    (h : msg ∈ errorsBeforeRules (withDefaults c)) :
    ∃ errs, (NewConfig (.ok c) random).1 = .error (.multi errs) ∧ msg ∈ errs := by
  rw [NewConfig_phases]
  obtain ⟨more, hm⟩ := rulesPhase_errs (withDefaults c).PortForwardingRules
    (errorsBeforeRules (withDefaults c)) random
  generalize rulesPhase (withDefaults c).PortForwardingRules
    (errorsBeforeRules (withDefaults c)) random = L at hm
  have hmem : msg ∈ L.2.1 := by rw [hm]; exact List.mem_append_left _ h
  have hpos : 0 < L.2.1.length := List.length_pos_of_mem hmem
  rw [if_pos hpos]
  exact ⟨L.2.1, rfl, hmem⟩

theorem errorsBeforeRules_neither (c : Config) (h : c.InstallerApp = "" ∧ c.SourceVMName = "") :
    "installer_app or source_vm_name must be specified" ∈ errorsBeforeRules c := by
  unfold errorsBeforeRules
  dsimp only
  rw [if_pos h]
  repeat' split
  all_goals simp

theorem errorsBeforeRules_both (c : Config) (h : c.InstallerApp ≠ "" ∧ c.SourceVMName ≠ "") :
    "cannot specify both an installer_app and source_vm_name" ∈ errorsBeforeRules c := by
  unfold errorsBeforeRules
  dsimp only
  rw [if_pos h]
  repeat' split
  all_goals simp

/-- C1. For every decoded configuration, `NewConfig` returns an error and no
`Config` when `installer_app` and `source_vm_name` are both empty, and when they
are both non-empty; a configuration it accepts has exactly one of the two
set. -/
theorem NewConfig_source_exactly_one (c : Config) (random : Rand) :
    ((c.InstallerApp = "" ∧ c.SourceVMName = "") →
      ∃ errs, (NewConfig (.ok c) random).1 = .error (.multi errs) ∧
        "installer_app or source_vm_name must be specified" ∈ errs) ∧
    ((c.InstallerApp ≠ "" ∧ c.SourceVMName ≠ "") →
      ∃ errs, (NewConfig (.ok c) random).1 = .error (.multi errs) ∧
        "cannot specify both an installer_app and source_vm_name" ∈ errs) ∧
    (∀ c', (NewConfig (.ok c) random).1 = .ok c' →
      (c'.InstallerApp ≠ "" ∧ c'.SourceVMName = "") ∨
      (c'.InstallerApp = "" ∧ c'.SourceVMName ≠ "")) := by
  obtain ⟨hI, hS, _, _⟩ := withDefaults_fields c
  refine ⟨fun h => ?_, fun h => ?_, fun c' h => ?_⟩
  · exact NewConfig_rejects c random _ (errorsBeforeRules_neither _ (by rw [hI, hS]; exact h))
  · exact NewConfig_rejects c random _ (errorsBeforeRules_both _ (by rw [hI, hS]; exact h))
  · obtain ⟨h1, h2, hI', hS', _⟩ := NewConfig_ok_inv c c' random h
    rw [hI', hS']
    by_cases hi : c.InstallerApp = ""
    · right
      exact ⟨hi, fun hs => h1 ⟨hi, hs⟩⟩
    · left
      refine ⟨hi, ?_⟩
      by_contra hs
      exact h2 ⟨hi, hs⟩

theorem NewConfig_source_exactly_one_witness :
    (∃ errs, (NewConfig (.ok Config.zero) sampleRand).1 = .error (.multi errs) ∧
        "installer_app or source_vm_name must be specified" ∈ errs) ∧
    (∃ errs, (NewConfig (.ok bothSourcesConfig) sampleRand).1 = .error (.multi errs) ∧
        "cannot specify both an installer_app and source_vm_name" ∈ errs) ∧
    (∃ c', (NewConfig (.ok installerConfig) sampleRand).1 = .ok c' ∧
      ((c'.InstallerApp ≠ "" ∧ c'.SourceVMName = "") ∨
       (c'.InstallerApp = "" ∧ c'.SourceVMName ≠ ""))) :=
  ⟨(NewConfig_source_exactly_one Config.zero sampleRand).1 ⟨rfl, rfl⟩,
   (NewConfig_source_exactly_one bothSourcesConfig sampleRand).2.1 ⟨by decide, by decide⟩,
   ⟨_, rfl, (NewConfig_source_exactly_one installerConfig sampleRand).2.2 _ rfl⟩⟩

/-- C6. For every configuration `NewConfig` accepts, the port-forwarding rules
keep their number and order; rule by rule, the guest and host ports are
unchanged, a non-empty name is unchanged, and an empty name has become a
generated name of 10 letters. -/
theorem NewConfig_keeps_rules (c c' : Config) (random : Rand)
    (h : (NewConfig (.ok c) random).1 = .ok c') :
    c'.PortForwardingRules.length = c.PortForwardingRules.length ∧
    List.Forall₂ RuleKept c.PortForwardingRules c'.PortForwardingRules := by
  obtain ⟨_, _, _, _, hk⟩ := NewConfig_ok_inv c c' random h
  exact ⟨hk.length_eq.symm, hk⟩

theorem NewConfig_keeps_rules_witness :
    ∃ c', (NewConfig (.ok installerConfig) sampleRand).1 = .ok c' ∧
      c'.PortForwardingRules.length = installerConfig.PortForwardingRules.length ∧
      List.Forall₂ RuleKept installerConfig.PortForwardingRules c'.PortForwardingRules :=
  ⟨_, rfl, NewConfig_keeps_rules installerConfig _ sampleRand rfl⟩

/-! ## Properties of `StepCreateVM` -/

/-- C3. With `source_vm_name` empty, `installer_app` set, a `cpu_count` that
parses as a base-10 32-bit integer and a non-empty `vm_name`, when the client
calls succeed `Run` issues exactly `CreateDisk`, `Create`, `Describe`, `Clone`:
`Create` with the image id `CreateDisk` returned and the name
`anka-disk-base-` plus 10 letters, `Describe` on that name, `Clone` into
`vm_name` with the UUID `Describe` returned; it returns `Continue` and the
run state holds `vm_name`. -/
theorem Run_installer_scenario (s : StepCreateVM) (state : StateBag) (random : Rand)
    (commands : List Command) (config : Config) (cl : Client)
    (imageID : String) (cpuCount : Int) (descr : DescribeResponse)
    (hconfig : state.GetOk "config" = some (.config config))
    (hui : state.GetOk "ui" = some .ui)
    (hclient : state.GetOk "client" = some (.client cl))
    (hsrc : config.SourceVMName = "")
    (_hinst : config.InstallerApp ≠ "")
    (hcpu : ParseInt config.CPUCount 32 = .ok cpuCount)
    (hname : config.VMName ≠ "")
    (hdisk : cl.CreateDisk commands
      { DiskSize := config.DiskSize, InstallerApp := config.InstallerApp } = .ok imageID)
    (hcreate : cl.Create
      (commands ++ [.CreateDisk { DiskSize := config.DiskSize, InstallerApp := config.InstallerApp }])
      { ImageID := imageID, RamSize := config.RAMSize, CPUCount := cpuCount,
        Name := "anka-disk-base-" ++ (randSeq random 10).1 } = none)
    (hdescribe : cl.Describe
      (commands ++ [.CreateDisk { DiskSize := config.DiskSize, InstallerApp := config.InstallerApp }]
        ++ [.Create { ImageID := imageID, RamSize := config.RAMSize, CPUCount := cpuCount,
                      Name := "anka-disk-base-" ++ (randSeq random 10).1 }])
      ("anka-disk-base-" ++ (randSeq random 10).1) = .ok descr)
    (hclone : cl.Clone
      (commands ++ [.CreateDisk { DiskSize := config.DiskSize, InstallerApp := config.InstallerApp }]
        ++ [.Create { ImageID := imageID, RamSize := config.RAMSize, CPUCount := cpuCount,
                      Name := "anka-disk-base-" ++ (randSeq random 10).1 }]
        ++ [.Describe ("anka-disk-base-" ++ (randSeq random 10).1)])
      { VMName := config.VMName, SourceUUID := descr.UUID } = none) :
    ∃ out, StepCreateVM.Run s state random commands = some out ∧
      out.action = .ActionContinue ∧
      out.commands = commands ++
        [.CreateDisk { DiskSize := config.DiskSize, InstallerApp := config.InstallerApp },
         .Create { ImageID := imageID, RamSize := config.RAMSize, CPUCount := cpuCount,
                   Name := "anka-disk-base-" ++ (randSeq random 10).1 },
         .Describe ("anka-disk-base-" ++ (randSeq random 10).1),
         .Clone { VMName := config.VMName, SourceUUID := descr.UUID }] ∧
      ((randSeq random 10).1.length = 10 ∧ ∀ ch ∈ (randSeq random 10).1.toList, ch ∈ letters) ∧
      out.state.GetOk "vm_name" = some (.str config.VMName) ∧
      out.state = state.Put "vm_name" (.str config.VMName) := by
  simp only [StepCreateVM.Run, hconfig, hui, hclient, hsrc, if_true, hdisk, hcpu, hcreate,
    describeAndClone, hdescribe, if_neg hname, hclone]
  refine ⟨_, rfl, rfl, by simp, ⟨randSeq_length random 10, randSeq_mem random 10⟩, ?_, rfl⟩
  simp [StateBag.Put, StateBag.GetOk]

theorem Run_installer_scenario_witness :
    ∃ out, StepCreateVM.Run StepCreateVM.zero (initialState installerConfig okClient)
        sampleRand [] = some out ∧
      out.action = .ActionContinue ∧
      out.commands =
        [.CreateDisk { DiskSize := "40G", InstallerApp := "/Applications/Install macOS.app" },
         .Create { ImageID := "image-1", RamSize := "4G", CPUCount := 2,
                   Name := "anka-disk-base-dkryFMTaho" },
         .Describe "anka-disk-base-dkryFMTaho",
         .Clone { VMName := "test-vm", SourceUUID := "uuid-1" }] ∧
      out.state.GetOk "vm_name" = some (.str "test-vm") := by
  obtain ⟨out, h1, h2, h3, _, h5, _⟩ :=
    Run_installer_scenario StepCreateVM.zero (initialState installerConfig okClient) sampleRand []
      installerConfig okClient "image-1" 2 { UUID := "uuid-1", CPUThreads := 4 }
      rfl rfl rfl rfl (by decide) rfl (by decide) rfl rfl rfl rfl
  exact ⟨out, h1, h2, h3, h5⟩

/-- What a run of the step that does not panic leaves behind, with the client
it stored. -/
theorem Run_post (s : StepCreateVM) (state : StateBag) (random : Rand)
    (commands : List Command) (config : Config) (cl : Client)
    (hconfig : state.GetOk "config" = some (.config config))
    (hui : state.GetOk "ui" = some .ui)
    (hclient : state.GetOk "client" = some (.client cl)) :
    ∃ out, StepCreateVM.Run s state random commands = some out ∧
      out.step.client = some cl ∧
      (out.action = .ActionHalt ↔ ∃ r ∈ out.ops, r.err ≠ none) ∧
      opsAnswered cl commands out.ops ∧
      out.commands = commands ++ opCommands out.ops ∧
      (out.action = .ActionHalt →
        (∃ failed, out.ops.getLast? = some failed ∧ failed.err ≠ none) ∧
        (∀ r ∈ out.ops.dropLast, r.err = none) ∧
        (∃ stored, out.state = state.Put "error" (.err stored)) ∧
        out.step.vmName = s.vmName) ∧
      (out.action = .ActionContinue →
        ∃ vmName, out.state = state.Put "vm_name" (.str vmName) ∧
          out.step.vmName = vmName ∧ ∀ r ∈ out.ops, r.err = none) := by
  unfold StepCreateVM.Run
  simp only [hconfig, hui, hclient]
  unfold describeAndClone
  generalize randSeq random 10 = g1
  generalize randSeq g1.2 10 = g2
  by_cases hvm : config.VMName = "" <;> by_cases hsrc : config.SourceVMName = ""
  all_goals simp only [hvm, hsrc, if_true, if_false, ite_true, ite_false]
  all_goals repeat' split
  all_goals try simp only [List.append_assoc, List.cons_append, List.nil_append] at *
  all_goals refine ⟨_, rfl, rfl, ?_, ?_, ?_, ?_, ?_⟩
  all_goals simp [haltWith, opsAnswered, Op.answer, Op.command, opCommands, *]
  all_goals exact ⟨_, rfl⟩

set_option maxHeartbeats 2000000 in
/-- A run that does not panic does what the table of its operations says: each
operation is attempted in turn, the first failure halts, and with no failure
the run continues. -/
theorem Run_table (s : StepCreateVM) (state : StateBag) (random : Rand)
    (commands : List Command) (config : Config) (cl : Client)
    (hconfig : state.GetOk "config" = some (.config config))
    (hui : state.GetOk "ui" = some .ui)
    (hclient : state.GetOk "client" = some (.client cl)) :
    ∃ out, StepCreateVM.Run s state random commands = some out ∧
      RunTable out s state random commands config cl ∧
      (out.action = .ActionHalt ↔ ¬ AllSucceed config cl random commands) ∧
      (out.action = .ActionContinue ↔ AllSucceed config cl random commands) := by
  unfold StepCreateVM.Run
  simp only [hconfig, hui, hclient]
  unfold describeAndClone RunTable AllSucceed TailTable TailSucceeds Halted Continued
    createParams cloneParams baseVMName diskParams
  generalize randSeq random 10 = g1
  generalize randSeq g1.2 10 = g2
  by_cases hvm : config.VMName = "" <;> by_cases hsrc : config.SourceVMName = ""
  all_goals simp only [hvm, hsrc, if_true, if_false, ite_true, ite_false]
  all_goals repeat' split
  all_goals try simp only [List.append_assoc, List.cons_append, List.nil_append] at *
  all_goals refine ⟨_, rfl, ?_, ?_, ?_⟩
  all_goals try simp [haltWith, *]
  all_goals try (repeat' apply And.intro)
  all_goals try (intros; subst_vars; simp_all)

/-- A run that does not panic found the configuration, the UI and the client in
the state bag. -/
theorem Run_some_inv (s : StepCreateVM) (state : StateBag) (random : Rand)
    (commands : List Command) (out : RunResult)
    (h : StepCreateVM.Run s state random commands = some out) :
    ∃ config cl, state.GetOk "config" = some (.config config) ∧
      state.GetOk "ui" = some .ui ∧ state.GetOk "client" = some (.client cl) := by
  unfold StepCreateVM.Run at h
  split at h
  · rename_i config cl hc hu hcl
    exact ⟨config, cl, hc, hu, hcl⟩
  · simp at h

/-- C4. `Run` returns `Halt` exactly when one of its fallible operations
(`CreateDisk`, the parse of `cpu_count`, `Create`, `Describe`, `Clone`) fails, and
`Continue` exactly when none does. The operations are attempted in that order,
each on the client that has received the commands before it; the first
failure halts: the failing command is the last one issued, the error is stored
under `error` (and shown), and `vm_name` is not written. With no failure all
commands are issued, `vm_name` is written and `error` is not. The log of
operations the run keeps agrees: every entry is the client's answer, the
failing entry is the last. -/
theorem Run_halt_iff_failure (s : StepCreateVM) (state : StateBag) (random : Rand)
    (commands : List Command) (config : Config) (cl : Client)
    (hconfig : state.GetOk "config" = some (.config config))
    (hui : state.GetOk "ui" = some .ui)
    (hclient : state.GetOk "client" = some (.client cl)) :
    ∃ out, StepCreateVM.Run s state random commands = some out ∧
      (out.action = .ActionHalt ↔ ¬ AllSucceed config cl random commands) ∧
      (out.action = .ActionContinue ↔ AllSucceed config cl random commands) ∧
      RunTable out s state random commands config cl ∧
      (out.action = .ActionHalt ↔ ∃ r ∈ out.ops, r.err ≠ none) ∧
      opsAnswered cl commands out.ops ∧
      out.commands = commands ++ opCommands out.ops ∧
      (out.action = .ActionHalt →
        (∃ failed, out.ops.getLast? = some failed ∧ failed.err ≠ none) ∧
        (∀ r ∈ out.ops.dropLast, r.err = none) ∧
        (∃ stored, out.state = state.Put "error" (.err stored)) ∧
        out.step.vmName = s.vmName) ∧
      (out.action = .ActionContinue →
        ∃ vmName, out.state = state.Put "vm_name" (.str vmName) ∧
          out.step.vmName = vmName ∧ ∀ r ∈ out.ops, r.err = none) := by
  obtain ⟨out, h, _, rest⟩ := Run_post s state random commands config cl hconfig hui hclient
  obtain ⟨out2, h2, htable, hH, hC⟩ :=
    Run_table s state random commands config cl hconfig hui hclient
  rw [h] at h2
  cases h2
  exact ⟨out, h, hH, hC, htable, rest⟩

theorem Run_halt_iff_failure_witness :
    ∃ out, StepCreateVM.Run StepCreateVM.zero (initialState installerConfig noDiskClient)
        sampleRand [] = some out ∧
      out.action = .ActionHalt ∧
      out.commands =
        [.CreateDisk { DiskSize := "40G", InstallerApp := "/Applications/Install macOS.app" }] ∧
      out.state = (initialState installerConfig noDiskClient).Put "error"
        (.err (.tool "no space left on device")) ∧
      out.ui.getLast? = some (.Error (.tool "no space left on device")) ∧
      ¬ AllSucceed installerConfig noDiskClient sampleRand [] := by
  obtain ⟨out, hrun, hiff, _, htable, _⟩ :=
    Run_halt_iff_failure StepCreateVM.zero (initialState installerConfig noDiskClient) sampleRand []
      installerConfig noDiskClient rfl rfl rfl
  obtain ⟨hH, hc, hst, hui, _⟩ := (htable.1 rfl).1 "no space left on device" rfl
  exact ⟨out, hrun, hH, hc, hst, hui, hiff.1 hH⟩

/-- With a client handle in the step, `Cleanup` does not panic and issues
exactly the one command for the name the step holds. -/
theorem Cleanup_with_client (nilClient : Option Client) (s : StepCreateVM) (cl : Client)
    (hcl : s.client = some cl) (state : StateBag) (received : List Command) :
    ∃ cout, StepCreateVM.Cleanup nilClient s state received = some cout ∧
      cout.commands = received ++ [cleanupCommand state s.vmName] ∧
      cout.logged = (cleanupAnswer cl state s.vmName received).toList ∧
      cout.step = s ∧ cout.state = state := by
  unfold StepCreateVM.Cleanup cleanupCommand cleanupAnswer
  simp only [hcl]
  cases hc : state.GetOk StateCancelled with
  | none =>
    cases hs : cl.Suspend received { VMName := s.vmName } <;> simp [hs]
  | some v =>
    cases hd : cl.Delete received { VMName := s.vmName, Force := true } <;> simp [hd]

/-- C2. After a `Run` that returned `Continue`, `Cleanup` issues exactly one
client command for the VM named under the run-state key `vm_name`: a `Delete`
with `Force = true` when the cancelled marker is in the state, a `Suspend` (and
no `Delete`) when it is not. -/
theorem Cleanup_after_continue (s : StepCreateVM) (state : StateBag) (random : Rand)
    (commands : List Command) (out : RunResult)
    (hrun : StepCreateVM.Run s state random commands = some out)
    (hcont : out.action = .ActionContinue) :
    ∃ vmName, out.state.GetOk "vm_name" = some (.str vmName) ∧
      ∀ (nilClient : Option Client) (state2 : StateBag) (received : List Command),
        state2.GetOk "vm_name" = some (.str vmName) →
        ∃ cout, StepCreateVM.Cleanup nilClient out.step state2 received = some cout ∧
          ((state2.GetOk StateCancelled).isSome = true →
            cout.commands = received ++ [.Delete { VMName := vmName, Force := true }]) ∧
          ((state2.GetOk StateCancelled).isSome = false →
            cout.commands = received ++ [.Suspend { VMName := vmName }]) := by
  obtain ⟨config, cl, hc, hu, hcl⟩ := Run_some_inv s state random commands out hrun
  obtain ⟨out1, h1, hclient, _, _, _, _, hC⟩ :=
    Run_post s state random commands config cl hc hu hcl
  rw [hrun] at h1
  cases h1
  obtain ⟨vmName, hstate, hname, _⟩ := hC hcont
  refine ⟨vmName, ?_, ?_⟩
  · rw [hstate]; simp [StateBag.Put, StateBag.GetOk]
  · intro nilClient state2 received _
    obtain ⟨cout, hco, hcmds, _⟩ :=
      Cleanup_with_client nilClient out.step cl hclient state2 received
    refine ⟨cout, hco, ?_, ?_⟩
    · intro hcan
      rw [hcmds, hname]; simp [cleanupCommand, hcan]
    · intro hcan
      rw [hcmds, hname]; simp [cleanupCommand, hcan]

theorem Cleanup_after_continue_witness :
    ∃ out, StepCreateVM.Run StepCreateVM.zero (initialState installerConfig okClient)
        sampleRand [] = some out ∧ out.action = .ActionContinue ∧
      ∃ vmName, out.state.GetOk "vm_name" = some (.str vmName) ∧
        ∀ (nilClient : Option Client) (state2 : StateBag) (received : List Command),
          state2.GetOk "vm_name" = some (.str vmName) →
          ∃ cout, StepCreateVM.Cleanup nilClient out.step state2 received = some cout ∧
            ((state2.GetOk StateCancelled).isSome = true →
              cout.commands = received ++ [.Delete { VMName := vmName, Force := true }]) ∧
            ((state2.GetOk StateCancelled).isSome = false →
              cout.commands = received ++ [.Suspend { VMName := vmName }]) :=
  ⟨_, rfl, rfl,
    Cleanup_after_continue StepCreateVM.zero (initialState installerConfig okClient) sampleRand []
      _ rfl rfl⟩

/-- C8, as the claim states it, fails: a fresh step whose `Run` halted at
`CreateDisk` recorded no VM name and wrote none to the run state, and its
`Cleanup` still issues a `Suspend`, for the empty name. -/
theorem Cleanup_after_failed_disk_suspends :
    ∃ out cout, StepCreateVM.Run StepCreateVM.zero (initialState installerConfig noDiskClient)
        sampleRand [] = some out ∧
      out.action = .ActionHalt ∧ out.step.vmName = "" ∧
      out.state.GetOk "vm_name" = none ∧
      out.commands =
        [.CreateDisk { DiskSize := "40G", InstallerApp := "/Applications/Install macOS.app" }] ∧
      StepCreateVM.Cleanup none out.step out.state out.commands = some cout ∧
      cout.commands =
        [.CreateDisk { DiskSize := "40G", InstallerApp := "/Applications/Install macOS.app" },
         .Suspend { VMName := "" }] :=
  ⟨_, _, rfl, rfl, rfl, rfl, rfl, rfl, rfl⟩

/-- C8, amended. When `Run` of a fresh step halted, the step holds the client
and no VM name, and `Cleanup` does not panic: it issues exactly one command for
the empty name, a forced `Delete` if the cancelled marker is present and a
`Suspend` otherwise; the error of that command, if any, is printed to the log
and goes nowhere else; step and state bag are left as they were, so a second
`Cleanup` issues that command once more, with the same effect on log, step and
state. On a step whose `Run` never ran the call goes to the `nil` client
handle: whenever `Cleanup` returns, the handle answered and exactly that one
command was issued, its error logged, step and state unchanged. -/
theorem Cleanup_when_no_vm (s : StepCreateVM) (state : StateBag) (random : Rand)
    (commands : List Command) (out : RunResult) (nilClient : Option Client)
    (state2 : StateBag) (received : List Command) :
    (s.vmName = "" → StepCreateVM.Run s state random commands = some out →
      out.action = .ActionHalt →
      out.step.vmName = "" ∧
      ∃ cl, out.step.client = some cl ∧ state.GetOk "client" = some (.client cl) ∧
      ∃ cout, StepCreateVM.Cleanup nilClient out.step state2 received = some cout ∧
        cout.commands = received ++ [cleanupCommand state2 ""] ∧
        cout.logged = (cleanupAnswer cl state2 "" received).toList ∧
        cout.step = out.step ∧ cout.state = state2 ∧
        ∃ cout2, StepCreateVM.Cleanup nilClient cout.step cout.state cout.commands = some cout2 ∧
          cout2.commands = received ++ [cleanupCommand state2 "", cleanupCommand state2 ""] ∧
          cout2.logged = (cleanupAnswer cl state2 "" cout.commands).toList ∧
          cout2.step = out.step ∧ cout2.state = state2) ∧
    (∀ cout, StepCreateVM.Cleanup nilClient StepCreateVM.zero state2 received = some cout →
      ∃ cl, nilClient = some cl ∧
        cout.commands = received ++ [cleanupCommand state2 ""] ∧
        cout.logged = (cleanupAnswer cl state2 "" received).toList ∧
        cout.step = StepCreateVM.zero ∧ cout.state = state2) := by
  refine ⟨?_, ?_⟩
  · intro hfresh hrun hhalt
    obtain ⟨config, cl, hc, hu, hcl⟩ := Run_some_inv s state random commands out hrun
    obtain ⟨out1, h1, hclient, _, _, _, hH, _⟩ :=
      Run_post s state random commands config cl hc hu hcl
    rw [hrun] at h1
    cases h1
    obtain ⟨_, _, _, hname⟩ := hH hhalt
    rw [hfresh] at hname
    refine ⟨hname, cl, hclient, hcl, ?_⟩
    obtain ⟨cout, hco, hcmds, hlog, hstep, hstate⟩ :=
      Cleanup_with_client nilClient out.step cl hclient state2 received
    obtain ⟨cout2, hco2, hcmds2, hlog2, hstep2, hstate2⟩ :=
      Cleanup_with_client nilClient out.step cl hclient state2 cout.commands
    rw [hname] at hcmds hcmds2 hlog hlog2
    refine ⟨cout, hco, hcmds, hlog, hstep, hstate, cout2, ?_, ?_, hlog2, hstep2, hstate2⟩
    · rw [hstep, hstate]; exact hco2
    · rw [hcmds2, hcmds]; simp
  · intro cout h
    cases nilClient with
    | none => simp [StepCreateVM.Cleanup, StepCreateVM.zero] at h
    | some cl =>
      refine ⟨cl, rfl, ?_⟩
      unfold StepCreateVM.Cleanup at h
      unfold cleanupCommand cleanupAnswer
      simp only [StepCreateVM.zero] at h ⊢
      cases hc : state2.GetOk StateCancelled with
      | none =>
        cases hs : cl.Suspend received { VMName := "" } <;>
          simp only [hc, hs, Option.some.injEq] at h <;> subst h <;> simp [hs]
      | some v =>
        cases hd : cl.Delete received { VMName := "", Force := true } <;>
          simp only [hc, hd, Option.some.injEq] at h <;> subst h <;> simp [hd]

theorem Cleanup_when_no_vm_witness :
    ∃ out, StepCreateVM.Run StepCreateVM.zero (initialState installerConfig noVMClient)
        sampleRand [] = some out ∧ out.action = .ActionHalt ∧
      out.step.vmName = "" ∧
      ∃ cout, StepCreateVM.Cleanup none out.step (cancelled out.state) out.commands
          = some cout ∧
        cout.commands =
          [.CreateDisk { DiskSize := "40G", InstallerApp := "/Applications/Install macOS.app" },
           .Delete { VMName := "", Force := true }] ∧
        cout.logged = ["VM not found: "] ∧
        ∃ cout2, StepCreateVM.Cleanup none cout.step cout.state cout.commands = some cout2 ∧
          cout2.commands =
            [.CreateDisk { DiskSize := "40G", InstallerApp := "/Applications/Install macOS.app" },
             .Delete { VMName := "", Force := true },
             .Delete { VMName := "", Force := true }] ∧
          cout2.logged = ["VM not found: "] := by
  obtain ⟨hname, cl, _, hstored, cout, hco, hcmds, hlog, _, _, cout2, hco2, hcmds2, hlog2, _⟩ :=
    (Cleanup_when_no_vm StepCreateVM.zero (initialState installerConfig noVMClient) sampleRand []
      ((StepCreateVM.Run StepCreateVM.zero (initialState installerConfig noVMClient)
        sampleRand []).getD
          { action := .ActionHalt, step := StepCreateVM.zero, state := [], random := sampleRand,
            commands := [], ops := [], ui := [] })
      none
      (cancelled ((initialState installerConfig noVMClient).Put "error"
        (.err (.tool "no space left on device"))))
      [.CreateDisk { DiskSize := "40G", InstallerApp := "/Applications/Install macOS.app" }]).1
      rfl rfl rfl
  have hcl : cl = noVMClient := by
    have h : some (Value.client noVMClient) = some (Value.client cl) := hstored
    injection h with h
    injection h with h
    exact h.symm
  subst hcl
  rw [hcmds] at hlog2
  exact ⟨_, rfl, rfl, hname, cout, hco, hcmds, hlog, cout2, hco2, hcmds2, hlog2⟩

/-! ## Properties of the registry client -/

/-- A format without a percent sign is printed as it is. -/
theorem doPrintf_plain (fuel : Nat) (format : List Char) (h : '%' ∉ format) :
    doPrintf (fuel + 1) format = format := by
  have htake : format.takeWhile (fun c => decide (c ≠ '%')) = format := by
    rw [List.takeWhile_eq_self_iff]
    intro c hc
    simp only [ne_eq, decide_not, Bool.not_eq_true', decide_eq_false_iff_not]
    intro hEq
    exact h (hEq ▸ hc)
  have hdrop : format.dropWhile (fun c => decide (c ≠ '%')) = [] := by
    rw [List.dropWhile_eq_nil_iff]
    intro c hc
    simp only [ne_eq, decide_not, Bool.not_eq_true', decide_eq_false_iff_not]
    intro hEq
    exact h (hEq ▸ hc)
  simp only [doPrintf, hdrop, htake]

/-- A message without a percent sign is the text of the error `fmt.Errorf`
builds from it. -/
theorem Errorf_plain (message : String) (h : '%' ∉ message.toList) :
    Errorf message = message := by
  unfold Errorf
  rw [doPrintf_plain _ _ h]
  rfl

/-- C7, at a failing input. The tool answers status `ERROR` with the message
`disk is 100% full`; `RegistryPush` and `RegistryList` fail with an error whose
text is `disk is 100%!f(MISSING)ull`, not the message: the message is used as
the format of `fmt.Errorf`. -/
theorem Registry_error_text_percent :
    RegistryPush diskFullRunner sampleRegistry samplePush = some "disk is 100%!f(MISSING)ull" ∧
    RegistryList diskFullRunner (fun _ => ([], none)) sampleRegistry
      = ([], some "disk is 100%!f(MISSING)ull") ∧
    "disk is 100%!f(MISSING)ull" ≠ "disk is 100% full" := by
  refine ⟨by rfl, by rfl, by decide⟩

/-- C9, as the claim states it, fails: the response has status code 200, its
body cannot be read, and nothing is parsed; the call returns the read error
and the empty envelope. -/
theorem registryRESTRequest_200_not_parsed :
    registryRESTRequest brokenBodyTransport okParser "DELETE"
        "https://registry.example:8089/registry/revert?id=abc" none
      = ((MachineReadableOutput.zero, some "unexpected EOF"), [.Do, .ReadAll]) ∧
    ∀ body, RestEvent.parseOutput body ∉
      (registryRESTRequest brokenBodyTransport okParser "DELETE"
        "https://registry.example:8089/registry/revert?id=abc" none).2 := by
  refine ⟨by rfl, ?_⟩
  intro body h
  have : (registryRESTRequest brokenBodyTransport okParser "DELETE"
        "https://registry.example:8089/registry/revert?id=abc" none).2 = [.Do, .ReadAll] := by rfl
  rw [this] at h
  simp at h

/-- Success of `RegistryRevert` traced back to the response. -/
theorem RegistryRevert_none_inv (t : Transport)
    (parseOutput : String → MachineReadableOutput × Option String) (url id : String)
    (h : RegistryRevert t parseOutput url id = none) :
    ∃ resp bytes, t.Do "DELETE" (url ++ "/registry/revert?id=" ++ id) none = .ok resp ∧
      resp.StatusCode = 200 ∧ resp.Body = .ok bytes ∧
      (parseOutput bytes).2 = none ∧ (parseOutput bytes).1.Status = "OK" := by
  unfold RegistryRevert registryRESTRequest at h
  dsimp only at h
  cases hreq : t.NewRequest "DELETE" (url ++ "/registry/revert?id=" ++ id) none with
  | some err => simp [hreq] at h
  | none =>
    cases hdo : t.Do "DELETE" (url ++ "/registry/revert?id=" ++ id) none with
    | error err => simp [hreq, hdo] at h
    | ok resp =>
      by_cases hcode : resp.StatusCode = 200
      · cases hbody : resp.Body with
        | error err => simp [hreq, hdo, hcode, hbody] at h
        | ok bytes =>
          simp only [hreq, hdo, hcode, hbody, if_true] at h
          cases hp : (parseOutput bytes).2 with
          | some err => simp [hp] at h
          | none =>
            simp only [hp] at h
            by_cases hst : (parseOutput bytes).1.Status = statusOK
            · exact ⟨resp, bytes, rfl, hcode, hbody, hp, hst⟩
            · simp [hst] at h
      · simp [hreq, hdo, hcode] at h

/-- C9, amended. For every HTTP response, the body is read exactly when the
status code is 200, and it is parsed into the envelope exactly when, in
addition, the read succeeds; every other status code fails with an
`unsupported http response code` error and the empty envelope, with no read and
no parse. `RegistryRevert` succeeds only on HTTP 200 with a body that was
read, parsed without error, and whose envelope has status `OK`. -/
theorem registryRESTRequest_parses_iff (t : Transport)
    (parseOutput : String → MachineReadableOutput × Option String)
    (method url : String) (body : Option String) (resp : HttpResponse)
    (hreq : t.NewRequest method url body = none)
    (hdo : t.Do method url body = .ok resp) :
    (RestEvent.ReadAll ∈ (registryRESTRequest t parseOutput method url body).2 ↔
      resp.StatusCode = 200) ∧
    ((∃ bytes, RestEvent.parseOutput bytes ∈ (registryRESTRequest t parseOutput method url body).2) ↔
      resp.StatusCode = 200 ∧ ∃ bytes, resp.Body = .ok bytes) ∧
    (∀ bytes, resp.StatusCode = 200 → resp.Body = .ok bytes →
      registryRESTRequest t parseOutput method url body
        = (parseOutput bytes, [.Do, .ReadAll, .parseOutput bytes])) ∧
    (∀ err, resp.StatusCode = 200 → resp.Body = .error err →
      registryRESTRequest t parseOutput method url body
        = ((MachineReadableOutput.zero, some err), [.Do, .ReadAll])) ∧
    (resp.StatusCode ≠ 200 →
      registryRESTRequest t parseOutput method url body
        = ((MachineReadableOutput.zero,
            some ("unsupported http response code: " ++ toString resp.StatusCode)), [.Do])) ∧
    (∀ revertUrl id, RegistryRevert t parseOutput revertUrl id = none →
      ∃ r bytes, t.Do "DELETE" (revertUrl ++ "/registry/revert?id=" ++ id) none = .ok r ∧
        r.StatusCode = 200 ∧ r.Body = .ok bytes ∧
        (parseOutput bytes).2 = none ∧ (parseOutput bytes).1.Status = "OK") := by
  refine ⟨?_, ?_, ?_, ?_, ?_, fun revertUrl id h => RegistryRevert_none_inv t parseOutput revertUrl id h⟩
  all_goals unfold registryRESTRequest
  all_goals simp only [hreq, hdo]
  · by_cases hcode : resp.StatusCode = 200
    · cases hbody : resp.Body <;> simp [hcode]
    · simp [hcode]
  · by_cases hcode : resp.StatusCode = 200
    · cases hbody : resp.Body <;> simp [hcode]
    · simp [hcode]
  · intro bytes hcode hbody
    simp [hcode, hbody]
  · intro err hcode hbody
    simp [hcode, hbody]
  · intro hcode
    simp [hcode]

theorem registryRESTRequest_parses_iff_witness :
    (RestEvent.ReadAll ∈ (registryRESTRequest okTransport okParser "DELETE"
        "https://registry.example:8089/registry/revert?id=abc" none).2 ↔
      okResponse.StatusCode = 200) ∧
    ((∃ bytes, RestEvent.parseOutput bytes ∈ (registryRESTRequest okTransport okParser "DELETE"
        "https://registry.example:8089/registry/revert?id=abc" none).2) ↔
      okResponse.StatusCode = 200 ∧ ∃ bytes, okResponse.Body = .ok bytes) :=
  ⟨(registryRESTRequest_parses_iff okTransport okParser "DELETE"
      "https://registry.example:8089/registry/revert?id=abc" none okResponse rfl rfl).1,
   (registryRESTRequest_parses_iff okTransport okParser "DELETE"
      "https://registry.example:8089/registry/revert?id=abc" none okResponse rfl rfl).2.1⟩

/-! ## Properties of the hyperthreading step -/

/-- C10. For every configuration with `enable_htt` and `disable_htt` both true,
the hyperthreading step returns `Halt` and performs no tool invocation,
whatever the client would answer. -/
theorem StepSetHyperThreadingRun_conflict (config : Config) (vmName : String)
    (invoke : Invoke) (threads : MachineReadableOutput → Int)
    (henable : config.EnableHtt = true) (hdisable : config.DisableHtt = true) :
    (StepSetHyperThreadingRun config vmName invoke threads).action = .ActionHalt ∧
    (StepSetHyperThreadingRun config vmName invoke threads).invocations = [] ∧
    (StepSetHyperThreadingRun config vmName invoke threads).error = some .ConfigConflict := by
  simp [StepSetHyperThreadingRun, henable, hdisable]

theorem StepSetHyperThreadingRun_conflict_witness :
    (StepSetHyperThreadingRun conflictingHttConfig "foo" emptyTestClient (fun _ => 0)).action
      = .ActionHalt ∧
    (StepSetHyperThreadingRun conflictingHttConfig "foo" emptyTestClient (fun _ => 0)).invocations
      = [] ∧
    (StepSetHyperThreadingRun conflictingHttConfig "foo" emptyTestClient (fun _ => 0)).error
      = some .ConfigConflict :=
  StepSetHyperThreadingRun_conflict conflictingHttConfig "foo" emptyTestClient (fun _ => 0) rfl rfl

end Anka
